import Mathlib

/-!
Verification of two PyTorch components against their specification:

* `torch/_export/passes/replace_view_ops_with_view_copy_ops_pass.py` —
  the view → view-copy graph rewrite pass, and
* `torch/_subclasses/fake_utils.py` — the `CrossRefFakeMode` dual-dispatch
  metadata verifier.

The Python source is shallowly embedded below: pure functions become Lean
functions, Python exceptions become `Except`, pytree values become an
inductive tree, and the external operator registry (`torch.ops.aten`)
becomes an explicit association-list structure.
-/

set_option maxRecDepth 4000

/-! ## Part 1: the view → view-copy rewrite pass -/

/-- An argument of an operator schema.  Only the presence of an alias
classification (`alias_info is not None` in the source) matters to the pass,
so the alias information itself is modelled as `Unit`. -/
structure Argument where
  alias_info : Option Unit
deriving DecidableEq, Repr

/-- `torch._C.FunctionSchema`: the qualified operation name (for example
"aten::transpose"), the overload name, and the argument list. -/
structure FunctionSchema where
  name : String
  overload_name : String
  arguments : List Argument
deriving DecidableEq, Repr

/-- An `OpOverload`: one concrete overload of an operation, identified by its
overload-packet (family) name and overload name, carrying its schema. -/
structure OpOverload where
  packet : String
  overload : String
  schema : FunctionSchema
deriving DecidableEq, Repr

/-- The `torch.ops.aten` registry, consumed via `hasattr`/`getattr` in the
source: a mapping from packet name to an overload packet, where a packet maps
overload names to `OpOverload`s. -/
structure AtenRegistry where
  packets : List (String × List (String × OpOverload))
deriving Repr

/-- `hasattr(torch.ops.aten, name)` + `getattr(torch.ops.aten, name)`. -/
def AtenRegistry.getPacket (r : AtenRegistry) (name : String) :
    Option (List (String × OpOverload)) :=
  r.packets.lookup name

/-- `hasattr(packet, overload)` + `getattr(packet, overload)`. -/
def packetGetOverload (p : List (String × OpOverload)) (ov : String) :
    Option OpOverload :=
  p.lookup ov

/-- Split a character list at every occurrence of "::", mirroring Python's
`str.split("::")` (left-to-right, non-overlapping). -/
def splitOnDColon : List Char → List (List Char)
  | [] => [[]]
  | ':' :: ':' :: rest => [] :: splitOnDColon rest
  | c :: rest =>
    match splitOnDColon rest with
    | [] => [[c]]
    | g :: gs => (c :: g) :: gs

/-- Python `schema.name.split("::")[1]` (total version: defaults to "" when
there is no second component, which cannot happen under the
`startswith("aten::")` guard). -/
def splitSecond (s : String) : String :=
  String.mk ((splitOnDColon s.data).getD 1 [])

/-- Python `s.startswith("aten::")`. -/
def startsWithAten (s : String) : Bool :=
  List.isPrefixOf "aten::".data s.data

/-- `is_view_op` from the source: true iff the schema has at least one
argument and the first argument has an alias classification. -/
def is_view_op (schema : FunctionSchema) : Bool :=
  match schema.arguments with
  | [] => false
  | a :: _ => a.alias_info.isSome

/-- `get_view_copy_of_view_op` from the source: derive the view-copy overload
of a view operator by appending "_copy" to the base name and looking the
result up in the `aten` registry at the original's overload qualifier
("default" when the schema's overload name is empty). -/
def get_view_copy_of_view_op (reg : AtenRegistry) (schema : FunctionSchema) :
    Option OpOverload :=
  if is_view_op schema = false then none
  else if startsWithAten schema.name then
    let view_op_name := splitSecond schema.name
    let view_op_overload :=
      if schema.overload_name != "" then schema.overload_name else "default"
    let view_copy_op_name := view_op_name ++ "_copy"
    match reg.getPacket view_copy_op_name with
    | none => none
    | some packet => packetGetOverload packet view_op_overload
  else none

/-- Schema of `aten._unsafe_view.default`.  Modelled from the spec: the
operator registry supplying schemas is external to the two source files; the
spec records that the statically-mapped "unsafe view" operation is
non-functional with no derivable view-copy name (no alias classification). -/
def unsafe_view_schema : FunctionSchema :=
  { name := "aten::_unsafe_view", overload_name := "", arguments := [⟨none⟩, ⟨none⟩] }

/-- `torch.ops.aten._unsafe_view.default`, the single static-table key. -/
def unsafe_view_default : OpOverload :=
  { packet := "_unsafe_view", overload := "default", schema := unsafe_view_schema }

/-- Schema of `aten.view_copy.default`.  Modelled from the spec: a view-copy
operation is pure-functional (no alias classification on its arguments). -/
def view_copy_schema : FunctionSchema :=
  { name := "aten::view_copy", overload_name := "", arguments := [⟨none⟩, ⟨none⟩] }

/-- `torch.ops.aten.view_copy.default`, the single static-table value. -/
def view_copy_default : OpOverload :=
  { packet := "view_copy", overload := "default", schema := view_copy_schema }

/-- `_NON_FUNCTIONAL_OPS_TO_FUNCTIONAL_OPS`: the fixed static substitution
table, keyed by `OpOverload`. -/
def non_functional_to_functional : List (OpOverload × OpOverload) :=
  [(unsafe_view_default, view_copy_default)]

/-- `_BLACK_LISTED_OPS`: the fixed exclusion entries, which are overload
FAMILIES (`OpOverloadPacket`s) in the source.  Modelled from the spec:
"set of OperatorIdentifier (or identifier-families) that must never be
substituted"; an operator belongs to an entry when its packet (family) name
is one of the listed families. -/
def black_listed_ops : List String :=
  ["sym_size", "sym_stride", "sym_numel"]

/-- Membership of an operator in the exclusion set (`op in _BLACK_LISTED_OPS`):
the operator's overload family is one of the excluded families. -/
def blackListed (op : OpOverload) : Bool :=
  op.packet ∈ black_listed_ops

/-- `ReplaceViewOpsWithViewCopyOpsPass.call_operator`.  The external
delegation step `super().call_operator` is the parameter `super`; the body
mirrors the source's three-branch priority chain, each branch ending in one
delegation call.  Per the spec, the schema consulted by the derivation step is
the visited operator's own schema. -/
def call_operator {A K M R : Type} (reg : AtenRegistry)
    (super : OpOverload → A → K → M → R)
    (op : OpOverload) (args : A) (kwargs : K) (meta : M) : R :=
  match non_functional_to_functional.lookup op with
  | some functional => super functional args kwargs meta
  | none =>
    if blackListed op then super op args kwargs meta
    else
      match get_view_copy_of_view_op reg op.schema with
      | some view_copy_op => super view_copy_op args kwargs meta
      | none => super op args kwargs meta

/-- The operator identifier that `call_operator` resolves a visited operator
to (the spec's `resolve`, restricted to its operator component; arguments,
keyword arguments and metadata pass through unchanged on every branch). -/
def resolve_op (reg : AtenRegistry) (op : OpOverload) : OpOverload :=
  match non_functional_to_functional.lookup op with
  | some functional => functional
  | none =>
    if blackListed op then op
    else
      match get_view_copy_of_view_op reg op.schema with
      | some view_copy_op => view_copy_op
      | none => op

/-! ### Concrete fixtures used by witnesses -/

/-- Schema of `aten.transpose.int`, the spec's worked example: first argument
carries an alias classification (transpose is a view). -/
def transpose_int_schema : FunctionSchema :=
  { name := "aten::transpose", overload_name := "int",
    arguments := [⟨some ()⟩, ⟨none⟩] }

/-- `aten.transpose.int`. -/
def transpose_int : OpOverload :=
  { packet := "transpose", overload := "int", schema := transpose_int_schema }

/-- `aten.transpose_copy.int`, the derived view-copy overload. -/
def transpose_copy_int : OpOverload :=
  { packet := "transpose_copy", overload := "int",
    schema := { name := "aten::transpose_copy", overload_name := "int",
                arguments := [⟨none⟩, ⟨none⟩] } }

/-- A small registry holding the `transpose_copy` overload family. -/
def demo_registry : AtenRegistry :=
  { packets := [("transpose_copy", [("int", transpose_copy_int)])] }

/-- `aten.sym_size.int`, a member of an excluded overload family. -/
def sym_size_int : OpOverload :=
  { packet := "sym_size", overload := "int",
    schema := { name := "aten::sym_size", overload_name := "int",
                arguments := [⟨none⟩, ⟨none⟩] } }

/-- An operator whose first argument has no alias classification. -/
def add_tensor_op : OpOverload :=
  { packet := "add", overload := "Tensor",
    schema := { name := "aten::add", overload_name := "Tensor",
                arguments := [⟨none⟩, ⟨none⟩] } }

/-- A member of a hypothetical "sym_size_copy" overload family, the would-be
derived substitute for an excluded-family operator. -/
def sym_size_copy_int : OpOverload :=
  { packet := "sym_size_copy", overload := "int",
    schema := { name := "aten::sym_size_copy", overload_name := "int",
                arguments := [⟨none⟩, ⟨none⟩] } }

/-- A hypothetical schema in the excluded sym_size family whose first
argument carries an alias classification. -/
def rigged_sym_size_schema : FunctionSchema :=
  { name := "aten::sym_size", overload_name := "int",
    arguments := [⟨some ()⟩, ⟨none⟩] }

/-- A hypothetical excluded-family operator satisfying every schema-derivation
hypothesis. -/
def rigged_sym_size_op : OpOverload :=
  { packet := "sym_size", overload := "int", schema := rigged_sym_size_schema }

/-- A registry in which the excluded-family operator's view-copy derivation
would succeed. -/
def rigged_sym_size_registry : AtenRegistry :=
  { packets := [("sym_size_copy", [("int", sym_size_copy_int)])] }

example : splitSecond "aten::transpose" = "transpose" := by decide

example : startsWithAten "aten::transpose" = true := by decide

/-! ## Part 2: the `CrossRefFakeMode` dual-dispatch verifier -/

/-- The operator tags consulted by `CrossRefFakeMode.__torch_dispatch__`
(`torch.Tag`); `other_tag` stands for every tag the code does not inspect. -/
inductive Tag where
  | dynamic_output_shape
  | inplace_view
  | data_dependent_output
  | other_tag
deriving DecidableEq, Repr

/-- The structural metadata of one tensor: shape, stride layout, dtype
(encoded as a numeric code), and whether the tensor is an abstract
(`FakeTensor`) one. -/
structure TensorMeta where
  shape : List Nat
  stride : List Nat
  dtype : Nat
  is_fake : Bool
deriving DecidableEq, Repr

/-- A pytree value: a tensor leaf, a non-tensor leaf, or a container.
Containers are modelled as binary pairs, which suffices to represent the
nested tuples/lists the dispatch code flattens. -/
inductive PyTree where
  | tensor (m : TensorMeta)
  | const (v : Nat)
  | pair (a b : PyTree)
deriving DecidableEq, Repr

/-- `torch.utils._pytree.tree_flatten(...)[0]`: the leaves of a tree in
left-to-right container-walking order. -/
def tree_flatten : PyTree → List PyTree
  | .tensor m => [.tensor m]
  | .const v => [.const v]
  | .pair a b => tree_flatten a ++ tree_flatten b

/-- `isinstance(x, torch.Tensor)` on a leaf. -/
def isTensorLeaf : PyTree → Bool
  | .tensor _ => true
  | _ => false

/-- The metadata of a tensor leaf (dummy on non-tensor leaves; only consulted
under an `isTensorLeaf` guard, as in the source). -/
def leafMeta : PyTree → TensorMeta
  | .tensor m => m
  | _ => { shape := [], stride := [], dtype := 0, is_fake := false }

/-- `FakeTensorMode.from_tensor`: lift one real tensor into its abstract
counterpart. -/
def from_tensor (m : TensorMeta) : TensorMeta :=
  { m with is_fake := true }

/-- The assertion message raised by `on_tensor`'s `go` when an intercepted
argument is already a `FakeTensor`. -/
def fakeLeakMsg : String := "FakeTensor -> Real Cross Ref NYI"

/-- `tree_map(on_tensor(fake_mode.from_tensor), t)`: convert every tensor
leaf via `from_tensor`, pass other leaves through, and raise an assertion
error on an already-fake tensor leaf.  The second component counts the
`from_tensor` (tensor-lifting) calls performed. -/
def lift_tree : PyTree → Except String PyTree × Nat
  | .tensor m =>
    if m.is_fake then (.error fakeLeakMsg, 0)
    else (.ok (.tensor (from_tensor m)), 1)
  | .const v => (.ok (.const v), 0)
  | .pair a b =>
    match lift_tree a with
    | (.error e, n) => (.error e, n)
    | (.ok a2, na) =>
      match lift_tree b with
      | (.error e, nb) => (.error e, na + nb)
      | (.ok b2, nb) => (.ok (.pair a2 b2), na + nb)

/-- Modelled from the spec: the external comparator
`torch._prims.utils.compare_tensor_meta(..., check_strides=True)` (not under
src/), which per the spec "compare[s] shape, dtype, and full stride layout"
and raises identifying the specific field on mismatch. -/
def compare_tensor_meta (a b : TensorMeta) : Except String Unit :=
  if a.shape ≠ b.shape then .error "shape mismatch"
  else if a.dtype ≠ b.dtype then .error "dtype mismatch"
  else if a.stride ≠ b.stride then .error "stride mismatch"
  else .ok ()

/-- The comparison loop of `__torch_dispatch__`:
`for r_out, fake_out in zip(tree_flatten(r)[0], tree_flatten(fake_r)[0])`.
`zip` stops at the shorter sequence; each pair must agree on tensor-ness
(bare `assert`, an `AssertionError`), and tensor pairs must agree on
metadata, the failure re-raised as `RuntimeError("Mismatch on ...")`. -/
def compare_outputs (fname : String) : List PyTree → List PyTree → Except String Unit
  | [], _ => .ok ()
  | _ :: _, [] => .ok ()
  | r :: rs, f :: fs =>
    if isTensorLeaf r = isTensorLeaf f then
      if isTensorLeaf r then
        match compare_tensor_meta (leafMeta r) (leafMeta f) with
        | .error e => .error ("Mismatch on " ++ fname ++ ": " ++ e)
        | .ok _ => compare_outputs fname rs fs
      else compare_outputs fname rs fs
    else .error "AssertionError"

/-- The operator identity handed to `__torch_dispatch__`: its qualified
overload id (used for the fixed skip list and diagnostics) and its tag set. -/
structure Func where
  id : String
  tags : List Tag
deriving DecidableEq, Repr

/-- `torch.ops.aten.lift_fresh.default`. -/
def lift_fresh_id : String := "aten.lift_fresh.default"

/-- `aten.lift_fresh_copy.default`. -/
def lift_fresh_copy_id : String := "aten.lift_fresh_copy.default"

/-- `torch.ops.aten.set_.source_Storage_storage_offset`. -/
def set_source_storage_id : String := "aten.set_.source_Storage_storage_offset"

/-- The fixed skip list of storage-aliasing/freshening operations. -/
def skip_list : List String :=
  [lift_fresh_id, lift_fresh_copy_id, set_source_storage_id]

/-- `CrossRefFakeMode`: its only configuration is the injectable
`ignore_op_fn` predicate (defaulting to "never ignore" in the source). -/
structure CrossRefFakeMode where
  ignore_op_fn : Func → Bool

/-- Negation of the source's guard on the shadow phase: the shadow (fake)
execution is skipped when the operator is in the fixed skip list, is ignored
by `ignore_op_fn`, or carries one of the three fatal tags. -/
def skip_condition (mode : CrossRefFakeMode) (func : Func) : Bool :=
  decide (func.id ∈ skip_list)
  || mode.ignore_op_fn func
  || decide (Tag.dynamic_output_shape ∈ func.tags)
  || decide (Tag.inplace_view ∈ func.tags)
  || decide (Tag.data_dependent_output ∈ func.tags)

/-- The shadow phase of `__torch_dispatch__`: when not skipped, lift `args`
and `kwargs` into fake tensors (counting the lifts) and run `func` on them
under the fake substrate (`fakeExec`); `UnsupportedFakeTensorException`
(`Except.error` of `fakeExec`) is swallowed, leaving `fake_r = None`; an
assertion raised while lifting propagates. -/
def run_shadow (mode : CrossRefFakeMode) (func : Func)
    (fakeExec : PyTree → PyTree → Except Unit PyTree)
    (args kwargs : PyTree) : Except String (Option PyTree) × Nat :=
  if skip_condition mode func then (.ok none, 0)
  else
    match lift_tree args with
    | (.error e, n) => (.error e, n)
    | (.ok fake_args, na) =>
      match lift_tree kwargs with
      | (.error e, nb) => (.error e, na + nb)
      | (.ok fake_kwargs, nb) =>
        match fakeExec fake_args fake_kwargs with
        | .error _ => (.ok none, na + nb)
        | .ok fake_r => (.ok (some fake_r), na + nb)

/-- `CrossRefFakeMode.__torch_dispatch__`.  The real and abstract execution
substrates are the oracles `realExec` and `fakeExec` (calling `func` on real
or fake arguments).  Returns the outcome (`Except.error` for a raised Python
exception) together with the number of tensor-lifting calls performed. -/
def torch_dispatch (mode : CrossRefFakeMode) (func : Func)
    (realExec : PyTree → PyTree → PyTree)
    (fakeExec : PyTree → PyTree → Except Unit PyTree)
    (args kwargs : PyTree) : Except String PyTree × Nat :=
  match run_shadow mode func fakeExec args kwargs with
  | (.error e, n) => (.error e, n)
  | (.ok fake_r, n) =>
    let r := realExec args kwargs
    match fake_r with
    | none => (.ok r, n)
    | some fr =>
      match compare_outputs func.id (tree_flatten r) (tree_flatten fr) with
      | .error e => (.error e, n)
      | .ok _ => (.ok r, n)

/-! ### Fixtures for the dispatch-side witnesses -/

/-- A `CrossRefFakeMode` with the default "never ignore" predicate. -/
def never_ignore : CrossRefFakeMode := ⟨fun _ => false⟩

/-- The `aten.transpose.int` operator identity as seen by the dispatcher. -/
def t_func : Func := ⟨"aten.transpose.int", []⟩

/-- An operator carrying the dynamic-output-shape tag. -/
def dyn_func : Func := ⟨"aten.nonzero.default", [Tag.dynamic_output_shape]⟩

/-- Metadata of a real 2 × 3 input tensor. -/
def real_in_meta : TensorMeta :=
  { shape := [2, 3], stride := [3, 1], dtype := 0, is_fake := false }

/-- Metadata of the real 3 × 2 transpose result. -/
def real_out_meta : TensorMeta :=
  { shape := [3, 2], stride := [1, 3], dtype := 0, is_fake := false }

/-- Metadata reported by a rigged abstract substrate: wrong shape. -/
def rigged_out_meta : TensorMeta :=
  { shape := [2, 2], stride := [1, 3], dtype := 0, is_fake := true }

/-- Real execution of the transpose example. -/
def t_real : PyTree → PyTree → PyTree := fun _ _ => .tensor real_out_meta

/-- A rigged abstract substrate reporting a different shape. -/
def rigged_fake : PyTree → PyTree → Except Unit PyTree :=
  fun _ _ => .ok (.tensor rigged_out_meta)

/-- An abstract substrate that signals every call as unsupported. -/
def unsupported_fake : PyTree → PyTree → Except Unit PyTree :=
  fun _ _ => .error ()

/-- Metadata of an abstract (fake) tensor appearing as an argument. -/
def fake_arg_meta : TensorMeta :=
  { shape := [2], stride := [1], dtype := 0, is_fake := true }

/-- Does the tree contain an abstract (fake) tensor leaf? -/
def hasFakeLeaf : PyTree → Bool
  | .tensor m => m.is_fake
  | .const _ => false
  | .pair a b => hasFakeLeaf a || hasFakeLeaf b

/-! ## Helper lemmas -/

/-- Lifting a tree with no fake tensor leaf succeeds. -/
theorem lift_tree_ok_of_no_fake :
    ∀ t : PyTree, hasFakeLeaf t = false → ∃ t2 n, lift_tree t = (Except.ok t2, n) := by
  intro t
  induction t with
  | tensor m =>
    intro h
    simp [hasFakeLeaf] at h
    exact ⟨.tensor (from_tensor m), 1, by simp [lift_tree, h]⟩
  | const v => intro _; exact ⟨.const v, 0, rfl⟩
  | pair a b iha ihb =>
    intro h
    simp [hasFakeLeaf] at h
    obtain ⟨a2, na, ha⟩ := iha h.1
    obtain ⟨b2, nb, hb⟩ := ihb h.2
    exact ⟨.pair a2 b2, na + nb, by simp [lift_tree, ha, hb]⟩

/-- Lifting a tree that contains a fake tensor leaf raises the assertion. -/
theorem lift_tree_error_of_fake :
    ∀ t : PyTree, hasFakeLeaf t = true → ∃ n, lift_tree t = (Except.error fakeLeakMsg, n) := by
  intro t
  induction t with
  | tensor m =>
    intro h
    simp [hasFakeLeaf] at h
    exact ⟨0, by simp [lift_tree, h]⟩
  | const v => intro h; simp [hasFakeLeaf] at h
  | pair a b iha ihb =>
    intro h
    simp [hasFakeLeaf] at h
    rcases h with h | h
    · obtain ⟨n, ha⟩ := iha h
      exact ⟨n, by simp [lift_tree, ha]⟩
    · cases hfa : hasFakeLeaf a with
      | true =>
        obtain ⟨n, ha⟩ := iha hfa
        exact ⟨n, by simp [lift_tree, ha]⟩
      | false =>
        obtain ⟨a2, na, ha⟩ := lift_tree_ok_of_no_fake a hfa
        obtain ⟨nb, hb⟩ := ihb h
        exact ⟨na + nb, by simp [lift_tree, ha, hb]⟩

/-- A passing, equal-length prefix does not affect the comparison loop. -/
theorem compare_outputs_drop_prefix (fname : String) :
    ∀ rs1 fs1 rs2 fs2 : List PyTree, rs1.length = fs1.length →
      compare_outputs fname rs1 fs1 = Except.ok () →
      compare_outputs fname (rs1 ++ rs2) (fs1 ++ fs2) = compare_outputs fname rs2 fs2 := by
  intro rs1
  induction rs1 with
  | nil =>
    intro fs1 rs2 fs2 hlen _
    have : fs1 = [] := List.length_eq_zero.mp hlen.symm
    subst this
    rfl
  | cons r rs ih =>
    intro fs1 rs2 fs2 hlen hok
    cases fs1 with
    | nil => simp at hlen
    | cons f fs =>
      simp at hlen
      by_cases ht : isTensorLeaf r = isTensorLeaf f
      · cases htr : isTensorLeaf r with
        | true =>
          cases hcm : compare_tensor_meta (leafMeta r) (leafMeta f) with
          | error e =>
            rw [compare_outputs, if_pos ht, if_pos htr, hcm] at hok
            exact absurd hok (by simp)
          | ok u =>
            rw [compare_outputs, if_pos ht, if_pos htr, hcm] at hok
            rw [List.cons_append, List.cons_append, compare_outputs,
              if_pos ht, if_pos htr, hcm]
            exact ih fs rs2 fs2 hlen hok
        | false =>
          rw [compare_outputs, if_pos ht, if_neg (by simp [htr])] at hok
          rw [List.cons_append, List.cons_append, compare_outputs,
            if_pos ht, if_neg (by simp [htr])]
          exact ih fs rs2 fs2 hlen hok
      · rw [compare_outputs, if_neg ht] at hok
        exact absurd hok (by simp)

/-! ## Claim theorems -/

/-- The schema-derivation step returns exactly the registry overload at the
derived name (base + "_copy") and the original's overload qualifier. -/
theorem get_view_copy_derivation (reg : AtenRegistry) (schema : FunctionSchema)
    (packet : List (String × OpOverload)) (opc : OpOverload)
    (halias : is_view_op schema = true)
    (hns : startsWithAten schema.name = true)
    (hfam : reg.getPacket (splitSecond schema.name ++ "_copy") = some packet)
    (hov : packetGetOverload packet
      (if schema.overload_name != "" then schema.overload_name else "default")
      = some opc) :
    get_view_copy_of_view_op reg schema = some opc := by
  unfold get_view_copy_of_view_op
  rw [halias]
  simp only [Bool.true_eq_false, if_false, hns, if_true]
  rw [hfam]
  exact hov

/-- C1 counterexample: the exclusion check precedes schema derivation in the
resolution chain, so an operator of the excluded sym_size family that
satisfies every one of the claim's hypotheses — alias-classified first
argument, "aten::" name, a registered "_copy" family containing the matching
overload qualifier — still resolves to the ORIGINAL operator, not the derived
view-copy identifier. -/
theorem C1_counterexample :
    is_view_op rigged_sym_size_op.schema = true
    ∧ startsWithAten rigged_sym_size_op.schema.name = true
    ∧ rigged_sym_size_registry.getPacket
        (splitSecond rigged_sym_size_op.schema.name ++ "_copy")
        = some [("int", sym_size_copy_int)]
    ∧ packetGetOverload [("int", sym_size_copy_int)]
        (if rigged_sym_size_op.schema.overload_name != ""
          then rigged_sym_size_op.schema.overload_name else "default")
        = some sym_size_copy_int
    ∧ resolve_op rigged_sym_size_registry rigged_sym_size_op = rigged_sym_size_op
    ∧ rigged_sym_size_op ≠ sym_size_copy_int :=
  ⟨rfl, rfl, rfl, rfl, by decide, by decide⟩

/-- C1 (amended): for every operator whose schema's first argument carries an
alias classification, whose schema name lies in the "aten::" namespace, for
which an overload family named base-name + "_copy" exists in the registry
containing the original's overload qualifier ("default" when the schema
reports an empty overload name, else the reported name verbatim), and whose
overload family is not one of the fixed excluded families, resolve returns
exactly that derived view-copy operator identifier.  (Membership in the
static substitution table needs no extra hypothesis: its only key carries no
alias classification, contradicting the first hypothesis.) -/
theorem C1_resolve_derived (reg : AtenRegistry) (op : OpOverload)
    (packet : List (String × OpOverload)) (opc : OpOverload)
    (halias : is_view_op op.schema = true)
    (hns : startsWithAten op.schema.name = true)
    (hfam : reg.getPacket (splitSecond op.schema.name ++ "_copy") = some packet)
    (hov : packetGetOverload packet
      (if op.schema.overload_name != "" then op.schema.overload_name else "default")
      = some opc)
    (hbl : blackListed op = false) :
    resolve_op reg op = opc := by
  have hder : get_view_copy_of_view_op reg op.schema = some opc :=
    get_view_copy_derivation reg op.schema packet opc halias hns hfam hov
  have hne : op ≠ unsafe_view_default := by
    intro he
    rw [he] at halias
    exact absurd halias (by decide)
  have hbeq : (op == unsafe_view_default) = false := beq_eq_false_iff_ne.mpr hne
  have hl : non_functional_to_functional.lookup op = none := by
    simp [non_functional_to_functional, List.lookup, hbeq]
  unfold resolve_op
  rw [hl]
  simp [hbl, hder]

/-- Witness for the amended C1 at the spec's example: "transpose" with
overload "int" resolves to "transpose_copy.int". -/
theorem C1_resolve_derived_witness :
    resolve_op demo_registry transpose_int = transpose_copy_int :=
  C1_resolve_derived demo_registry transpose_int
    [("int", transpose_copy_int)] transpose_copy_int
    rfl rfl rfl rfl rfl

/-- C4: for every operator that is a key of the static substitution table
(`_NON_FUNCTIONAL_OPS_TO_FUNCTIONAL_OPS`), `call_operator` delegates the
statically mapped functional operator with args, kwargs and meta unchanged —
before (hence with priority over) the exclusion check and schema derivation,
and for every registry. -/
theorem C4_static_substitution {A K M R : Type} (reg : AtenRegistry)
    (super : OpOverload → A → K → M → R)
    (op functional : OpOverload) (args : A) (kwargs : K) (meta : M)
    (h : non_functional_to_functional.lookup op = some functional) :
    call_operator reg super op args kwargs meta = super functional args kwargs meta := by
  unfold call_operator
  rw [h]

/-- Witness for C4: `_unsafe_view.default` maps to `view_copy.default`, even
under a registry in which schema derivation is available for other operators. -/
theorem C4_static_substitution_witness :
    call_operator demo_registry (fun o a k m => (o, a, k, m))
      unsafe_view_default (1 : Nat) (2 : Nat) (3 : Nat)
      = (view_copy_default, 1, 2, 3) :=
  C4_static_substitution demo_registry (fun o a k m => (o, a, k, m))
    unsafe_view_default view_copy_default 1 2 3 (by decide)

/-- C5: for every operator belonging to one of the fixed excluded overload
families (sym_size, sym_stride, sym_numel), `call_operator` delegates the
original operator unchanged, bypassing schema derivation — for every registry
and hence even when derivation would produce a substitute. -/
theorem C5_exclusion {A K M R : Type} (reg : AtenRegistry)
    (super : OpOverload → A → K → M → R)
    (op : OpOverload) (args : A) (kwargs : K) (meta : M)
    (h : blackListed op = true) :
    call_operator reg super op args kwargs meta = super op args kwargs meta := by
  have hne : op ≠ unsafe_view_default := by
    intro he
    rw [he] at h
    exact absurd h (by decide)
  have hbeq : (op == unsafe_view_default) = false := beq_eq_false_iff_ne.mpr hne
  have hl : non_functional_to_functional.lookup op = none := by
    simp [non_functional_to_functional, List.lookup, hbeq]
  unfold call_operator
  rw [hl]
  simp [h]

/-- Witness for C5: `sym_size.int` is delegated unchanged. -/
theorem C5_exclusion_witness :
    call_operator demo_registry (fun o a k m => (o, a, k, m))
      sym_size_int (1 : Nat) (2 : Nat) (3 : Nat)
      = (sym_size_int, 1, 2, 3) :=
  C5_exclusion demo_registry (fun o a k m => (o, a, k, m))
    sym_size_int 1 2 3 (by decide)

/-- C6: for every operator outside the static table and the exclusion set
whose schema has zero arguments, or whose first argument has no alias
classification, or whose schema name is outside the "aten::" namespace,
`call_operator` delegates the original operator unchanged. -/
theorem C6_no_substitution {A K M R : Type} (reg : AtenRegistry)
    (super : OpOverload → A → K → M → R)
    (op : OpOverload) (args : A) (kwargs : K) (meta : M)
    (htab : non_functional_to_functional.lookup op = none)
    (hbl : blackListed op = false)
    (hcase : op.schema.arguments = []
      ∨ (∃ a rest, op.schema.arguments = a :: rest ∧ a.alias_info = none)
      ∨ startsWithAten op.schema.name = false) :
    call_operator reg super op args kwargs meta = super op args kwargs meta := by
  have hderiv : get_view_copy_of_view_op reg op.schema = none := by
    rcases hcase with h | ⟨a, rest, hargs, hnone⟩ | h
    · unfold get_view_copy_of_view_op is_view_op
      rw [h]
      simp
    · unfold get_view_copy_of_view_op is_view_op
      rw [hargs]
      simp [hnone]
    · unfold get_view_copy_of_view_op
      cases hi : is_view_op op.schema with
      | false => simp
      | true => simp [hi, h]
  unfold call_operator
  rw [htab]
  simp [hbl, hderiv]

/-- Witness for C6: `add.Tensor` (no alias classification on its first
argument) is delegated unchanged. -/
theorem C6_no_substitution_witness :
    call_operator demo_registry (fun o a k m => (o, a, k, m))
      add_tensor_op (1 : Nat) (2 : Nat) (3 : Nat)
      = (add_tensor_op, 1, 2, 3) :=
  C6_no_substitution demo_registry (fun o a k m => (o, a, k, m))
    add_tensor_op 1 2 3 (by decide) (by decide)
    (Or.inr (Or.inl ⟨⟨none⟩, [⟨none⟩], rfl, rfl⟩))

/-- C7: on every branch, `call_operator` consists of exactly one invocation
of the external delegate, applied to the resolved effective operator and to
the args, kwargs and meta it received, and its result is returned: for every
delegate `super`, the call equals a single application of `super`. -/
theorem C7_single_delegation {A K M R : Type} (reg : AtenRegistry)
    (super : OpOverload → A → K → M → R)
    (op : OpOverload) (args : A) (kwargs : K) (meta : M) :
    call_operator reg super op args kwargs meta
      = super (resolve_op reg op) args kwargs meta := by
  unfold call_operator resolve_op
  cases hls : non_functional_to_functional.lookup op with
  | some functional => rfl
  | none =>
    by_cases hb : blackListed op
    · simp [hb]
    · simp only [hb, if_false, Bool.false_eq_true]
      cases hd : get_view_copy_of_view_op reg op.schema with
      | some v => rfl
      | none => rfl

/-- C3: when the operator is in the fixed skip list, is ignored by the
injected predicate, or carries a dynamic-output-shape, in-place-view or
data-dependent-output tag, the dispatcher performs zero tensor-lifting calls,
never invokes the abstract substrate (the result is the same for every
abstract substrate `fakeExec`), and still returns the real result. -/
theorem C3_skip_shadow (mode : CrossRefFakeMode) (func : Func)
    (realExec : PyTree → PyTree → PyTree) (args kwargs : PyTree)
    (h : func.id ∈ skip_list ∨ mode.ignore_op_fn func = true
      ∨ Tag.dynamic_output_shape ∈ func.tags
      ∨ Tag.inplace_view ∈ func.tags
      ∨ Tag.data_dependent_output ∈ func.tags) :
    ∀ fakeExec : PyTree → PyTree → Except Unit PyTree,
      torch_dispatch mode func realExec fakeExec args kwargs
        = (Except.ok (realExec args kwargs), 0) := by
  intro fakeExec
  have hs : skip_condition mode func = true := by
    unfold skip_condition
    rcases h with h | h | h | h | h <;> simp [h]
  unfold torch_dispatch run_shadow
  rw [hs]
  simp

/-- Witness for C3: a dynamic-output-shape operator is dispatched with zero
lifts, returning the real result, even under a rigged abstract substrate. -/
theorem C3_skip_shadow_witness :
    torch_dispatch never_ignore dyn_func t_real rigged_fake
      (PyTree.tensor real_in_meta) (PyTree.const 0)
      = (Except.ok (t_real (PyTree.tensor real_in_meta) (PyTree.const 0)), 0) :=
  C3_skip_shadow never_ignore dyn_func t_real
    (PyTree.tensor real_in_meta) (PyTree.const 0)
    (Or.inr (Or.inr (Or.inl (by decide)))) rigged_fake

/-- Outcome shape of the dispatcher: it either raises, or returns exactly the
real result. -/
theorem torch_dispatch_ok_is_real (mode : CrossRefFakeMode) (func : Func)
    (realExec : PyTree → PyTree → PyTree)
    (fakeExec : PyTree → PyTree → Except Unit PyTree) (args kwargs : PyTree) :
    (∃ e, (torch_dispatch mode func realExec fakeExec args kwargs).1 = Except.error e)
    ∨ (torch_dispatch mode func realExec fakeExec args kwargs).1
        = Except.ok (realExec args kwargs) := by
  unfold torch_dispatch
  cases hrs : run_shadow mode func fakeExec args kwargs with
  | mk res m =>
    cases res with
    | error e => exact Or.inl ⟨e, rfl⟩
    | ok fake_r =>
      cases fake_r with
      | none => exact Or.inr rfl
      | some fr =>
        cases hc : compare_outputs func.id
            (tree_flatten (realExec args kwargs)) (tree_flatten fr) with
        | error e => exact Or.inl ⟨e, by simp [hc]⟩
        | ok u => exact Or.inr (by simp [hc])

/-- C8: whenever the dispatcher does not raise, the returned value is exactly
the real execution's result on the original arguments; and an unsupported
abstract execution is never surfaced as an error — the real execution
proceeds and its result is returned. -/
theorem C8_returns_real (mode : CrossRefFakeMode) (func : Func)
    (realExec : PyTree → PyTree → PyTree)
    (fakeExec : PyTree → PyTree → Except Unit PyTree) (args kwargs : PyTree) :
    (∀ v, (torch_dispatch mode func realExec fakeExec args kwargs).1 = Except.ok v
      → v = realExec args kwargs)
    ∧ (∀ fa fk na nb,
        lift_tree args = (Except.ok fa, na) →
        lift_tree kwargs = (Except.ok fk, nb) →
        fakeExec fa fk = Except.error () →
        (torch_dispatch mode func realExec fakeExec args kwargs).1
          = Except.ok (realExec args kwargs)) := by
  constructor
  · intro v h
    rcases torch_dispatch_ok_is_real mode func realExec fakeExec args kwargs with ⟨e, he⟩ | hr
    · rw [h] at he
      exact absurd he (by simp)
    · rw [h] at hr
      exact Except.ok.inj hr
  · intro fa fk na nb hla hlk hfu
    have hrs : run_shadow mode func fakeExec args kwargs
        = (Except.ok none, if skip_condition mode func then 0 else na + nb) := by
      unfold run_shadow
      cases hs : skip_condition mode func with
      | true => simp
      | false => simp [hla, hlk, hfu]
    unfold torch_dispatch
    rw [hrs]

/-- Witness for C8: an unsupported abstract execution is swallowed and the
real result returned. -/
theorem C8_returns_real_witness :
    t_real (PyTree.tensor real_in_meta) (PyTree.const 0)
        = t_real (PyTree.tensor real_in_meta) (PyTree.const 0)
    ∧ (torch_dispatch never_ignore t_func t_real unsupported_fake
        (PyTree.tensor real_in_meta) (PyTree.const 0)).1
      = Except.ok (t_real (PyTree.tensor real_in_meta) (PyTree.const 0)) :=
  ⟨(C8_returns_real never_ignore t_func t_real unsupported_fake
      (PyTree.tensor real_in_meta) (PyTree.const 0)).1
      (t_real (PyTree.tensor real_in_meta) (PyTree.const 0))
      ((C8_returns_real never_ignore t_func t_real unsupported_fake
        (PyTree.tensor real_in_meta) (PyTree.const 0)).2
        (PyTree.tensor (from_tensor real_in_meta)) (PyTree.const 0) 1 0 rfl rfl rfl),
   (C8_returns_real never_ignore t_func t_real unsupported_fake
      (PyTree.tensor real_in_meta) (PyTree.const 0)).2
      (PyTree.tensor (from_tensor real_in_meta)) (PyTree.const 0) 1 0 rfl rfl rfl⟩

/-- C2: when the shadow phase runs and yields an abstract result, a shape,
dtype or stride disagreement at the first failing tensor pair (all earlier
pairs agreeing) raises the diagnostic error naming the operator, whatever the
remaining leaves are (they are never compared), and no value is returned. -/
theorem C2_mismatch_error (mode : CrossRefFakeMode) (func : Func)
    (realExec : PyTree → PyTree → PyTree)
    (fakeExec : PyTree → PyTree → Except Unit PyTree) (args kwargs : PyTree)
    (fa fk : PyTree) (na nb : Nat) (fr : PyTree)
    (rs1 rrest fs1 frest : List PyTree) (rmeta fmeta : TensorMeta) (e : String)
    (hskip : skip_condition mode func = false)
    (hla : lift_tree args = (Except.ok fa, na))
    (hlk : lift_tree kwargs = (Except.ok fk, nb))
    (hfake : fakeExec fa fk = Except.ok fr)
    (hr : tree_flatten (realExec args kwargs) = rs1 ++ PyTree.tensor rmeta :: rrest)
    (hf : tree_flatten fr = fs1 ++ PyTree.tensor fmeta :: frest)
    (hlen : rs1.length = fs1.length)
    (hpre : compare_outputs func.id rs1 fs1 = Except.ok ())
    (hcmp : compare_tensor_meta rmeta fmeta = Except.error e) :
    torch_dispatch mode func realExec fakeExec args kwargs
      = (Except.error ("Mismatch on " ++ func.id ++ ": " ++ e), na + nb) := by
  have hrs : run_shadow mode func fakeExec args kwargs = (Except.ok (some fr), na + nb) := by
    unfold run_shadow
    rw [hskip]
    simp [hla, hlk, hfake]
  have hco : compare_outputs func.id (tree_flatten (realExec args kwargs)) (tree_flatten fr)
      = Except.error ("Mismatch on " ++ func.id ++ ": " ++ e) := by
    rw [hr, hf, compare_outputs_drop_prefix func.id rs1 fs1 _ _ hlen hpre]
    simp [compare_outputs, isTensorLeaf, leafMeta, hcmp]
  unfold torch_dispatch
  rw [hrs]
  simp [hco]

/-- Witness for C2, on the spec's scenario: a rigged abstract substrate
reporting shape 2 × 2 where the real transpose result has shape 3 × 2 makes
the dispatcher raise "Mismatch on aten.transpose.int". -/
theorem C2_mismatch_error_witness :
    torch_dispatch never_ignore t_func t_real rigged_fake
      (PyTree.tensor real_in_meta) (PyTree.const 0)
      = (Except.error ("Mismatch on " ++ t_func.id ++ ": " ++ "shape mismatch"), 1 + 0) :=
  C2_mismatch_error never_ignore t_func t_real rigged_fake
    (PyTree.tensor real_in_meta) (PyTree.const 0)
    (PyTree.tensor (from_tensor real_in_meta)) (PyTree.const 0) 1 0
    (PyTree.tensor rigged_out_meta)
    [] [] [] [] real_out_meta rigged_out_meta "shape mismatch"
    rfl rfl rfl rfl rfl rfl rfl rfl rfl

/-- C9 counterexample: an intercepted call whose shadow phase is skipped (here
because of the dynamic-output-shape tag) does NOT fail on an abstract (fake)
tensor argument leaf — the dispatcher proceeds and returns the real result,
refuting "for every intercepted call". -/
theorem C9_counterexample :
    hasFakeLeaf (PyTree.tensor fake_arg_meta) = true
    ∧ torch_dispatch never_ignore dyn_func (fun _ _ => PyTree.const 7)
        (fun _ _ => Except.ok (PyTree.const 7))
        (PyTree.tensor fake_arg_meta) (PyTree.const 0)
        = (Except.ok (PyTree.const 7), 0) :=
  ⟨rfl, rfl⟩

/-- C9 (amended): for every intercepted call whose shadow phase is not
skipped, if any tensor-valued argument leaf (positional or keyword) is
already an abstract (fake) tensor, the dispatcher fails fast with the
assertion "FakeTensor -> Real Cross Ref NYI" and no value is returned. -/
theorem C9_fake_leak_assertion (mode : CrossRefFakeMode) (func : Func)
    (realExec : PyTree → PyTree → PyTree)
    (fakeExec : PyTree → PyTree → Except Unit PyTree) (args kwargs : PyTree)
    (hskip : skip_condition mode func = false)
    (hfake : hasFakeLeaf args = true ∨ hasFakeLeaf kwargs = true) :
    (torch_dispatch mode func realExec fakeExec args kwargs).1
      = Except.error fakeLeakMsg := by
  have hrs : ∃ n, run_shadow mode func fakeExec args kwargs = (Except.error fakeLeakMsg, n) := by
    unfold run_shadow
    rw [hskip]
    cases hfa : hasFakeLeaf args with
    | true =>
      obtain ⟨n, ha⟩ := lift_tree_error_of_fake args hfa
      exact ⟨n, by simp [ha]⟩
    | false =>
      have hfk : hasFakeLeaf kwargs = true := by
        rcases hfake with h | h
        · rw [hfa] at h
          exact absurd h (by simp)
        · exact h
      obtain ⟨a2, na, ha⟩ := lift_tree_ok_of_no_fake args hfa
      obtain ⟨n, hk⟩ := lift_tree_error_of_fake kwargs hfk
      exact ⟨na + n, by simp [ha, hk]⟩
  obtain ⟨n, hrs⟩ := hrs
  unfold torch_dispatch
  rw [hrs]

/-- Witness for the amended C9: a fake tensor among the positional arguments
of a non-skipped call raises the assertion. -/
theorem C9_fake_leak_assertion_witness :
    (torch_dispatch never_ignore t_func t_real rigged_fake
        (PyTree.tensor fake_arg_meta) (PyTree.const 0)).1
      = Except.error fakeLeakMsg :=
  C9_fake_leak_assertion never_ignore t_func t_real rigged_fake
    (PyTree.tensor fake_arg_meta) (PyTree.const 0) rfl (Or.inl rfl)

/-- Appending leaves beyond the shorter list does not change the comparison
loop (`zip` truncates to the shorter sequence). -/
theorem compare_outputs_truncR (fname : String) :
    ∀ rs fs extra : List PyTree, rs.length ≤ fs.length →
      compare_outputs fname rs (fs ++ extra) = compare_outputs fname rs fs := by
  intro rs
  induction rs with
  | nil => intro fs extra _; rfl
  | cons r rs ih =>
    intro fs extra hlen
    cases fs with
    | nil => simp at hlen
    | cons f fs =>
      simp only [List.length_cons, Nat.add_le_add_iff_right] at hlen
      by_cases ht : isTensorLeaf r = isTensorLeaf f
      · cases htr : isTensorLeaf r with
        | true =>
          have htf : isTensorLeaf f = true := ht.symm.trans htr
          cases hcm : compare_tensor_meta (leafMeta r) (leafMeta f) with
          | error e => simp [compare_outputs, htr, htf, hcm]
          | ok u => simp [compare_outputs, htr, htf, hcm, ih fs extra hlen]
        | false =>
          have htf : isTensorLeaf f = false := ht.symm.trans htr
          simp [compare_outputs, htr, htf, ih fs extra hlen]
      · simp [compare_outputs, ht]

/-- Symmetric truncation: excess real leaves beyond the abstract list are
never inspected. -/
theorem compare_outputs_truncL (fname : String) :
    ∀ rs fs extra : List PyTree, fs.length ≤ rs.length →
      compare_outputs fname (rs ++ extra) fs = compare_outputs fname rs fs := by
  intro rs
  induction rs with
  | nil =>
    intro fs extra hlen
    have hfs : fs = [] := List.length_eq_zero.mp (Nat.le_zero.mp hlen)
    subst hfs
    cases extra with
    | nil => rfl
    | cons x xs => rfl
  | cons r rs ih =>
    intro fs extra hlen
    cases fs with
    | nil => rfl
    | cons f fs =>
      simp only [List.length_cons, Nat.add_le_add_iff_right] at hlen
      by_cases ht : isTensorLeaf r = isTensorLeaf f
      · cases htr : isTensorLeaf r with
        | true =>
          have htf : isTensorLeaf f = true := ht.symm.trans htr
          cases hcm : compare_tensor_meta (leafMeta r) (leafMeta f) with
          | error e => simp [compare_outputs, htr, htf, hcm]
          | ok u => simp [compare_outputs, htr, htf, hcm, ih fs extra hlen]
        | false =>
          have htf : isTensorLeaf f = false := ht.symm.trans htr
          simp [compare_outputs, htr, htf, ih fs extra hlen]
      · simp [compare_outputs, ht]

/-- C10: the comparison loop compares only pairs up to the length of the
shorter flattened sequence — excess leaves of the longer result are never
compared or type-checked — and a pure length discrepancy raises no error
(comparison against an exhausted side is a success). -/
theorem C10_zip_truncates (fname : String) (rs fs extra : List PyTree) :
    (rs.length ≤ fs.length →
      compare_outputs fname rs (fs ++ extra) = compare_outputs fname rs fs)
    ∧ (fs.length ≤ rs.length →
      compare_outputs fname (rs ++ extra) fs = compare_outputs fname rs fs)
    ∧ compare_outputs fname rs [] = Except.ok ()
    ∧ compare_outputs fname [] fs = Except.ok () :=
  ⟨compare_outputs_truncR fname rs fs extra,
   compare_outputs_truncL fname rs fs extra,
   by cases rs <;> rfl,
   rfl⟩

/-- Witness for C10: an extra abstract leaf with mismatching metadata beyond
the single real leaf is never compared. -/
theorem C10_zip_truncates_witness :
    compare_outputs "aten.split.default"
      [PyTree.tensor real_out_meta]
      ([PyTree.tensor real_out_meta] ++ [PyTree.tensor rigged_out_meta])
      = compare_outputs "aten.split.default"
          [PyTree.tensor real_out_meta] [PyTree.tensor real_out_meta] :=
  (C10_zip_truncates "aten.split.default"
    [PyTree.tensor real_out_meta] [PyTree.tensor real_out_meta]
    [PyTree.tensor rigged_out_meta]).1 (by decide)
